import Mathlib

/-!
Verification of the PictoPoint printer server (`main.py`, `config_parser.py`).

The Python sources are shallowly embedded below.  Python strings are Lean
`String`s (lists of characters), Python `int`s are `Int` (or `Nat` where the
source value is always a natural number, such as the static printer profile
constants), and fallible Python expressions (expressions that can raise) are
`Option`-valued.  The escpos device is modelled abstractly: each
`printer.<call>` becomes an abstract `Directive`, the device session is an
event trace, and device faults are injected by index into the call stream.
-/

namespace PictoPoint

/-! ## Currency formatting (`format_rupiah`, main.py lines 21-35)

The source formats with the f-string `f"Rp{amount:,.0f}"` and then replaces
every `,` with `.`.  CPython formats an `int` with the `f` presentation type
by first converting it to an IEEE-754 double (round to nearest, ties to
even), raising `OverflowError` when the rounded value is out of double range;
the resulting integral double is then printed exactly, grouped in thousands
with `,`.  We model the double conversion with `roundToDouble` and the
out-of-range failure with an `Option` result. -/

/-- Number of bits of `n` (auxiliary, fuel-based so that it reduces in the
kernel; the fuel `n` is always sufficient since halving reaches `0` within
`n` steps for every `n`). -/
def bitLenAux : Nat → Nat → Nat
  | 0, _ => 0
  | f + 1, n => if n = 0 then 0 else bitLenAux f (n / 2) + 1

/-- Number of binary digits of `n` (`0` for `n = 0`). -/
def bitLen (n : Nat) : Nat := bitLenAux n n

/-- Round `n` to a multiple of `2 ^ k`, ties to even (the IEEE-754 default
rounding used by CPython's int-to-float conversion). -/
def roundHalfEven (n k : Nat) : Nat :=
  let p := 2 ^ k
  let q := n / p
  let r := n % p
  let half := 2 ^ (k - 1)
  if r < half then q * p
  else if half < r then (q + 1) * p
  else if q % 2 = 0 then q * p else (q + 1) * p

/-- The nonnegative integer value of the IEEE-754 double nearest to `n`
(a double has a 53-bit significand, so `n` below `2 ^ 53` is exact). -/
def roundToDouble (n : Nat) : Nat :=
  if n < 2 ^ 53 then n else roundHalfEven n (bitLen n - 53)

/-- Insert a `.` after every three characters of a reversed digit list
(this is the thousands grouping of `{:,}` with the separator already
replaced by `.`, as done by `.replace(",", ".")` in the source). -/
def group3 : List Char → List Char
  | a :: b :: c :: d :: rest => a :: b :: c :: '.' :: group3 (d :: rest)
  | l => l

/-- Decimal digits of `n` grouped in thousands with `.` separators. -/
def groupedDecimal (n : Nat) : String :=
  String.mk ((group3 ((Nat.toDigits 10 n).reverse)).reverse)

/-- Embedding of `format_rupiah` (main.py lines 21-35):
`return f"Rp{amount:,.0f}".replace(",", ".")`.  The value is `none` when the
int-to-double conversion inside the format raises `OverflowError`. -/
def format_rupiah (amount : Int) : Option String :=
  let r := roundToDouble amount.natAbs
  if r < 2 ^ 1024 then
    some ("Rp" ++ (if amount < 0 then "-" else "") ++ groupedDecimal r)
  else none

/-! ## Row justification (`create_justify_string`, main.py lines 38-60) -/

/-- Python string slice `s[:n]` with an arbitrary integer bound: a negative
bound counts from the end of the string. -/
def pyTake (s : String) (n : Int) : String :=
  String.mk (s.data.take (if 0 ≤ n then n.toNat else s.data.length - n.natAbs))

/-- Python `f"{s:<{w}}"`: pad `s` with trailing spaces to width `w`.  A
negative `w` makes the format specifier start with a sign character, which
raises `ValueError` for a string argument; this is the `none` case. -/
def pyFormatLeft (s : String) (w : Int) : Option String :=
  if w < 0 then none
  else some (String.mk (s.data ++ List.replicate (w.toNat - s.data.length) ' '))

/-- Embedding of `create_justify_string` (main.py lines 38-60). -/
def create_justify_string (left right : String) (max_char_row : Int) : Option String :=
  let left_max_len : Int := max_char_row - (right.data.length : Int)
  let l := if (left.data.length : Int) > left_max_len then pyTake left left_max_len else left
  match pyFormatLeft l left_max_len with
  | none => none
  | some padded => some (String.mk (padded.data ++ right.data))

/-- The row justifier as the specification words it: `left`, truncated to
`width - length right` characters if longer, padded with trailing spaces to
`width - length right` characters, followed verbatim by `right`. -/
def justify_spec (left right : String) (width : Nat) : String :=
  String.mk (left.data.take (width - right.data.length)
    ++ List.replicate ((width - right.data.length) - left.data.length) ' '
    ++ right.data)

/-! ## Data model (main.py lines 107-187, config_parser.py lines 11-50) -/

/-- The `Literal["cash", "e-wallet"]` payment method field. -/
inductive PaymentMethod where
  | cash
  | ewallet
deriving DecidableEq, Repr

/-- Embedding of the `payment_method_str` display-label dictionary
(main.py line 18). -/
def payment_method_str : PaymentMethod → String
  | .cash => "Cash"
  | .ewallet => "E-Wallet"

/-- Embedding of the `Transaction` pydantic model (main.py lines 107-129). -/
structure Transaction where
  cashier : String
  payment_method : PaymentMethod
  paid_amount : Int
  change : Int
  paid_at : String
deriving DecidableEq, Repr

/-- Embedding of the `OrderItem` pydantic model (main.py lines 132-148). -/
structure OrderItem where
  name : String
  price : Int
  quantity : Int
deriving DecidableEq, Repr

/-- Embedding of the `Order` pydantic model (main.py lines 151-173). -/
structure Order where
  order_id : Int
  subtotal : Int
  total : Int
  transaction : Transaction
  items : List OrderItem
deriving DecidableEq, Repr

/-- Embedding of the `OrderNumber` pydantic model (main.py lines 176-186). -/
structure OrderNumber where
  order_id : Int
deriving DecidableEq, Repr

/-- A printer profile: the value type of the `printer_data` dictionary
(config_parser.py lines 11-24). -/
structure Profile where
  max_char_row : Nat
  image_width : Nat
deriving DecidableEq, Repr

/-- Embedding of the static `printer_data` registry
(config_parser.py lines 11-24). -/
def printer_data : String → Option Profile
  | "POS-58" => some ⟨32, 384⟩
  | "POS-80" => some ⟨48, 512⟩
  | "EPSON TM-T82" => some ⟨48, 512⟩
  | _ => none

/-- Embedding of the `Printer` dataclass (config_parser.py lines 26-39); its
`profile` field is populated by `__post_init__` from `printer_data`. -/
structure Printer where
  printer_name : String
  printer_type : String
  profile : Profile
deriving DecidableEq, Repr

/-- The `Printer` constructor including `__post_init__`, which raises
`ValueError` (here `none`) for a printer type missing from `printer_data`
(config_parser.py lines 35-39). -/
def mkPrinter (printer_name printer_type : String) : Option Printer :=
  (printer_data printer_type).map fun pf => ⟨printer_name, printer_type, pf⟩

/-- Embedding of the `Config` dataclass (config_parser.py lines 41-50). -/
structure Config where
  host : String
  port : Int
  cors_origin : List String
  printers : List Printer
deriving DecidableEq, Repr

/-! ## Printer directives and device traces

Each `printer.<method>(...)` call in the handlers becomes one abstract
directive.  `set` carries only the keyword arguments actually passed at the
call site; `setWD` is `set_with_default` with its `align`, `bold`,
`double_width`, `double_height` arguments. -/

/-- One abstract escpos call. -/
inductive Directive where
  | image (width : Nat) (asset : String) (center : Bool)
  | setWD (align : String) (bold dw dh : Bool)
  | set (align : Option String) (bold : Option Bool)
  | text (s : String)
  | textln (s : String)
  | cut
  | close
deriving DecidableEq, Repr

/-- A step of the handler body: `some d` executes directive `d`; `none`
means evaluating the arguments of the call raised a Python exception
(a failed `create_justify_string` or an overflowing `format_rupiah`). -/
abbrev Step := Option Directive

/-- Python `"-" * max_char_row`, the divider row. -/
def divider (w : Nat) : String := String.mk (List.replicate w '-')

/-- A `printer.textln(create_justify_string(left, right, max_char_row))`
call: `none` when the justifier raises. -/
def jrowStep (left right : String) (w : Nat) : Step :=
  (create_justify_string left right (w : Int)).map Directive.textln

/-- A `printer.textln(create_justify_string(left, format_rupiah(v), w))`
call: `none` when the formatter or the justifier raises. -/
def frowStep (left : String) (v : Int) (w : Nat) : Step :=
  (format_rupiah v).bind fun r => jrowStep left r w

/-- The per-item row of the receipt (main.py lines 247-250):
`create_justify_string(f"{item.name} x{item.quantity}",
format_rupiah(item.price * item.quantity), max_char_row)`. -/
def itemStep (w : Nat) (it : OrderItem) : Step :=
  frowStep (it.name ++ " x" ++ toString it.quantity) (it.price * it.quantity) w

/-- The receipt-copy calls up to (and excluding) the conditional change row
(main.py lines 235-292). -/
def preChangeSteps (w : Nat) (o : Order) : List Step :=
  [ some (.text "No. Pesanan: "),
    some (.set none (some true)),
    some (.textln (toString o.order_id)),
    some (.set none (some false)),
    some (.textln ("Waktu: " ++ o.transaction.paid_at)),
    some (.textln ("Kasir: " ++ o.transaction.cashier)),
    some (.textln (divider w)),
    some (.textln ""),
    some (.set none (some false)) ]
  ++ o.items.map (itemStep w)
  ++ [ some (.textln ""),
       some (.textln (divider w)),
       frowStep "Subtotal: " o.subtotal w,
       frowStep "Biaya Penanganan: " (o.total - o.subtotal) w,
       some (.textln (divider w)),
       some (.set none (some true)),
       frowStep "Total: " o.total w,
       some (.textln (divider w)),
       some (.set none (some false)),
       jrowStep "Metode Bayar: " (payment_method_str o.transaction.payment_method) w,
       frowStep "Bayar: " o.transaction.paid_amount w ]

/-- The change row (main.py lines 294-301), emitted only for cash payment. -/
def changeStep (w : Nat) (o : Order) : Step :=
  frowStep "Kembalian: " o.transaction.change w

/-- The receipt-copy calls after the change row and before the first-copy
conditional block (main.py lines 303-306). -/
def postChangeSteps (w : Nat) : List Step :=
  [ some (.textln (divider w)),
    some (.set (some "center") none),
    some (.textln "Terima kasih!") ]

/-- The `if i == 0` supplementary block (main.py lines 308-313): the
scan-invitation lines and the secondary `AR QR` image. -/
def extraSteps (imgw : Nat) : List Step :=
  [ some (.textln "\n"),
    some (.textln "Scan QR di bawah untuk melihat AR"),
    some (.textln ""),
    some (.image imgw "assets/AR QR.png" true),
    some (.setWD "center" false false false) ]

/-- One iteration of the `for i in range(3)` loop of `print_receipt`
(main.py lines 234-317), including the per-copy `cut` and the (mis-indented)
per-copy `close`. -/
def copySteps (w imgw : Nat) (o : Order) (i : Nat) : List Step :=
  preChangeSteps w o
  ++ (if o.transaction.payment_method = PaymentMethod.cash then [changeStep w o] else [])
  ++ postChangeSteps w
  ++ (if i = 0 then extraSteps imgw else [])
  ++ [some .cut, some .close]

/-- The calls before the copy loop (main.py lines 230-232): header image,
style reset, divider. -/
def receiptPreamble (w imgw : Nat) : List Step :=
  [ some (.image imgw "assets/Picto 7.png" true),
    some (.setWD "left" false false false),
    some (.textln (divider w)) ]

/-- The full call stream of the `print_receipt` try-block
(main.py lines 230-317). -/
def receiptSteps (w imgw : Nat) (o : Order) : List Step :=
  receiptPreamble w imgw ++ ((List.range 3).map (copySteps w imgw o)).flatten

/-- The full call stream of the `print_number` try-block
(main.py lines 351-366). -/
def numberSteps (imgw : Nat) (o : OrderNumber) : List Step :=
  [ some (.image imgw "assets/Picto 7.png" true),
    some (.textln ""),
    some (.setWD "center" true true true),
    some (.textln (toString o.order_id)),
    some (.textln ""),
    some (.setWD "center" false false false),
    some (.textln "Harap bawa ke kasir!"),
    some .cut,
    some .close ]

/-! ## Executing the handlers

`emitSteps` turns the call stream into the list of directives actually
issued: a `none` step is a Python exception raised while building a row, so
emission stops there and the flag is `false`.  `runDevice` additionally
injects a device fault: `faultAt = some n` makes the `n`-th issued call
raise a device-level exception. -/

/-- Directives reached before the first argument-evaluation exception, and
whether the whole stream was built without an exception. -/
def emitSteps : List Step → List Directive × Bool
  | [] => ([], true)
  | none :: _ => ([], false)
  | some d :: rest =>
    let p := emitSteps rest
    (d :: p.1, p.2)

/-- Execute calls against the device with an injected fault: the calls
actually performed and whether a device fault was raised. -/
def runDevice (calls : List Directive) (faultAt : Option Nat) : List Directive × Bool :=
  match faultAt with
  | none => (calls, false)
  | some n => if n < calls.length then (calls.take n, true) else (calls, false)

/-- A device-session event: the `Win32Raw(name)` construction or one
executed call. -/
inductive Ev where
  | openDevice (name : String)
  | exec (d : Directive)
deriving DecidableEq, Repr

/-- The handler result: a raised `HTTPException`, or a `JSONResponse` with a
`message` body, or a `JSONResponse` with an `error` body. -/
inductive Response where
  | httpException (status : Nat) (detail : String)
  | jsonMessage (status : Nat) (message : String)
  | jsonError (status : Nat)
deriving DecidableEq, Repr

/-- The placeholder used with `List.getD`; the handlers index the printer
list only after the range guard, so it is never selected. -/
def defaultPrinter : Printer := ⟨"", "", ⟨0, 0⟩⟩

/-- `config.printers[printer_id - 1]` (main.py lines 225, 227-228). -/
def resolvedPrinter (cfg : Config) (printer_id : Int) : Printer :=
  cfg.printers.getD (printer_id - 1).toNat defaultPrinter

/-- Shared tail of both handlers: execute the built call stream inside the
`try` block against the opened device, with the bare `except Exception`
returning a 500 error `JSONResponse` and the success path returning the 201
`JSONResponse` (main.py lines 226, 318-321 and 350, 367-370). -/
def respTrace (em : List Directive × Bool) (name : String)
    (faultAt : Option Nat) : Response × List Ev :=
  let run := runDevice em.1 faultAt
  let tr := Ev.openDevice name :: run.1.map Ev.exec
  if run.2 || !em.2 then (.jsonError 500, tr)
  else (.jsonMessage 201 "Struk berhasil dibuat", tr)

/-- Embedding of the `print_receipt` endpoint (main.py lines 200-321):
the `printer_id` guard, the `Win32Raw` session, the try-block call stream
with an optional injected device fault, the bare `except Exception` that
returns a 500 `JSONResponse`, and the 201 success `JSONResponse`.  The
result is the response together with the device-event trace. -/
def print_receipt (cfg : Config) (o : Order) (printer_id : Int)
    (faultAt : Option Nat) : Response × List Ev :=
  if printer_id < 1 ∨ (cfg.printers.length : Int) < printer_id then
    (.httpException 422 "Printer id isn\x27t valid", [])
  else
    respTrace
      (emitSteps (receiptSteps (resolvedPrinter cfg printer_id).profile.max_char_row
        (resolvedPrinter cfg printer_id).profile.image_width o))
      (resolvedPrinter cfg printer_id).printer_name faultAt

/-- Embedding of the `print_number` endpoint (main.py lines 324-370),
analogous to `print_receipt`. -/
def print_number (cfg : Config) (o : OrderNumber) (printer_id : Int)
    (faultAt : Option Nat) : Response × List Ev :=
  if printer_id < 1 ∨ (cfg.printers.length : Int) < printer_id then
    (.httpException 422 "Printer id isn\x27t valid", [])
  else
    respTrace (emitSteps (numberSteps (resolvedPrinter cfg printer_id).profile.image_width o))
      (resolvedPrinter cfg printer_id).printer_name faultAt

/-! ## Configuration loading (`config_parser.py` lines 52-101)

The filesystem is modelled as the content of `config.json`: `none` when the
file does not exist.  JSON (de)serialisation round-trips the structured
`ConfigData` value, so the `isinstance` assertions of `Config.load` hold by
typing and the only parse-time failure is the `Printer.__post_init__`
`ValueError` for an unknown printer type. -/

/-- The raw printer entry of the JSON file (no resolved profile yet). -/
structure RawPrinter where
  printer_name : String
  printer_type : String
deriving DecidableEq, Repr

/-- The structured content of `config.json`. -/
structure ConfigData where
  host : String
  port : Int
  cors_origin : List String
  printers : List RawPrinter
deriving DecidableEq, Repr

/-- The default configuration written by `Config.write_default`
(config_parser.py lines 61-68). -/
def default_config_data : ConfigData :=
  ⟨"0.0.0.0", 9000, ["*"], [⟨"POS-58", "POS-58"⟩]⟩

/-- Embedding of `Config.write_default` (config_parser.py lines 52-68) as a
filesystem transition: it overwrites `config.json` with the defaults. -/
def write_default (_fs : Option ConfigData) : Option ConfigData :=
  some default_config_data

/-- Sequence a list of options: `none` if any element is `none`. -/
def sequenceOpt : List (Option α) → Option (List α)
  | [] => some []
  | o :: rest =>
    match o, sequenceOpt rest with
    | some a, some l => some (a :: l)
    | _, _ => none

/-- The body of `Config.load` after the file has been read
(config_parser.py lines 81-101): field checks and printer construction. -/
def parseConfig (d : ConfigData) : Except String Config :=
  match sequenceOpt (d.printers.map fun rp => mkPrinter rp.printer_name rp.printer_type) with
  | some ps => .ok ⟨d.host, d.port, d.cors_origin, ps⟩
  | none => .error "Undefined printer type"

/-- Embedding of `Config.load` (config_parser.py lines 70-101): when
`config.json` is a file it is first overwritten with the defaults
(`if os.path.isfile: write_default`), then the file is opened — which fails
with `FileNotFoundError` when it does not exist — and parsed.  Returns the
final filesystem state and the outcome. -/
def Config.load (fs : Option ConfigData) : Option ConfigData × Except String Config :=
  let fs1 := if fs.isSome then write_default fs else fs
  match fs1 with
  | none => (none, .error "FileNotFoundError")
  | some d => (some d, parseConfig d)

/-! ## Counting directives in call streams and traces -/

/-- Lift a directive predicate to a step; a `none` step (an exception while
building the row) issues no directive, so it never matches. -/
def stepP (p : Directive → Bool) : Step → Bool
  | some d => p d
  | none => false

/-- Count the steps issuing a directive satisfying `p`. -/
def stepCountP (p : Directive → Bool) (steps : List Step) : Nat :=
  steps.countP (stepP p)

/-- Count the steps issuing exactly the step value `v`. -/
def stepCount (v : Step) (steps : List Step) : Nat :=
  steps.countP fun s => decide (s = v)

/-- The directive is `close`. -/
def closeP : Directive → Bool
  | .close => true
  | _ => false

/-- The directive draws the `Picto 7` header asset. -/
def isPicto : Directive → Bool
  | .image _ a _ => a == "assets/Picto 7.png"
  | _ => false

/-- The directive draws the secondary `AR QR` asset. -/
def isAR : Directive → Bool
  | .image _ a _ => a == "assets/AR QR.png"
  | _ => false

/-- The event executes a `close` call. -/
def evCloseP : Ev → Bool
  | .exec Directive.close => true
  | _ => false

/-- Number of `close` calls executed in a device trace. -/
def closeCount (tr : List Ev) : Nat := tr.countP evCloseP

/-! ## Concrete test data -/

/-- A configuration with one `POS-58` printer, as produced by loading the
default `config.json`. -/
def cfg1 : Config := ⟨"0.0.0.0", 9000, ["*"], [⟨"POS-58", "POS-58", ⟨32, 384⟩⟩]⟩

/-- A small cash order with one item. -/
def o1 : Order :=
  ⟨1, 10000, 12000, ⟨"Ana", .cash, 15000, 3000, "2024-01-01 10:00"⟩, [⟨"Kopi", 5000, 2⟩]⟩

/-- An e-wallet order with no items. -/
def o2 : Order :=
  ⟨2, 4000, 4000, ⟨"Budi", .ewallet, 4000, 0, "2024-01-02 09:30"⟩, []⟩

/-- A concrete order-number ticket. -/
def num1 : OrderNumber := ⟨7⟩

/-! ## Helper lemmas -/

theorem jrowStep_shape (l r : String) (w : Nat) :
    jrowStep l r w = none ∨ ∃ s, jrowStep l r w = some (Directive.textln s) := by
  unfold jrowStep
  cases create_justify_string l r (w : Int) with
  | none => exact Or.inl rfl
  | some s => exact Or.inr ⟨s, rfl⟩

theorem frowStep_shape (l : String) (v : Int) (w : Nat) :
    frowStep l v w = none ∨ ∃ s, frowStep l v w = some (Directive.textln s) := by
  unfold frowStep
  cases format_rupiah v with
  | none => exact Or.inl rfl
  | some r => exact jrowStep_shape l r w

theorem stepP_jrow (p : Directive → Bool) (hp : ∀ s, p (Directive.textln s) = false)
    (l r : String) (w : Nat) : stepP p (jrowStep l r w) = false := by
  rcases jrowStep_shape l r w with h | ⟨s, h⟩ <;> rw [h] <;> simp [stepP, hp]

theorem stepP_frow (p : Directive → Bool) (hp : ∀ s, p (Directive.textln s) = false)
    (l : String) (v : Int) (w : Nat) : stepP p (frowStep l v w) = false := by
  rcases frowStep_shape l v w with h | ⟨s, h⟩ <;> rw [h] <;> simp [stepP, hp]

theorem stepCountP_items (p : Directive → Bool) (hp : ∀ s, p (Directive.textln s) = false)
    (w : Nat) (items : List OrderItem) :
    (items.map (itemStep w)).countP (stepP p) = 0 := by
  apply List.countP_eq_zero.mpr
  intro a ha
  rcases List.mem_map.1 ha with ⟨it, _, rfl⟩
  simp [itemStep, stepP_frow p hp]

theorem closeP_textln (s : String) : closeP (Directive.textln s) = false := rfl

theorem isPicto_textln (s : String) : isPicto (Directive.textln s) = false := rfl

theorem isAR_textln (s : String) : isAR (Directive.textln s) = false := rfl

theorem receiptSteps_eq (w imgw : Nat) (o : Order) :
    receiptSteps w imgw o =
      receiptPreamble w imgw
        ++ (copySteps w imgw o 0 ++ (copySteps w imgw o 1 ++ copySteps w imgw o 2)) := by
  have h3 : List.range 3 = [0, 1, 2] := rfl
  rw [receiptSteps, h3]
  simp [List.flatten]

theorem stepP_some (p : Directive → Bool) (d : Directive) : stepP p (some d) = p d := rfl

set_option maxRecDepth 8000 in
theorem copySteps_countP_close (w imgw : Nat) (o : Order) (i : Nat) :
    stepCountP closeP (copySteps w imgw o i) = 1 := by
  unfold stepCountP copySteps preChangeSteps postChangeSteps extraSteps changeStep
  simp only [List.countP_append, List.countP_cons, List.countP_nil, stepP_some,
        stepCountP_items closeP closeP_textln,
        stepP_frow closeP closeP_textln, stepP_jrow closeP closeP_textln,
        apply_ite (List.countP (stepP closeP)), closeP]
  simp

set_option maxRecDepth 8000 in
theorem copySteps_countP_picto (w imgw : Nat) (o : Order) (i : Nat) :
    stepCountP isPicto (copySteps w imgw o i) = 0 := by
  unfold stepCountP copySteps preChangeSteps postChangeSteps extraSteps changeStep
  simp only [List.countP_append, List.countP_cons, List.countP_nil, stepP_some,
        stepCountP_items isPicto isPicto_textln,
        stepP_frow isPicto isPicto_textln, stepP_jrow isPicto isPicto_textln,
        apply_ite (List.countP (stepP isPicto)), isPicto]
  simp

set_option maxRecDepth 8000 in
theorem copySteps_countP_ar (w imgw : Nat) (o : Order) (i : Nat) :
    stepCountP isAR (copySteps w imgw o i) = if i = 0 then 1 else 0 := by
  unfold stepCountP copySteps preChangeSteps postChangeSteps extraSteps changeStep
  simp only [List.countP_append, List.countP_cons, List.countP_nil, stepP_some,
        stepCountP_items isAR isAR_textln,
        stepP_frow isAR isAR_textln, stepP_jrow isAR isAR_textln,
        apply_ite (List.countP (stepP isAR)), isAR]
  simp

theorem stepCountP_append (p : Directive → Bool) (a b : List Step) :
    stepCountP p (a ++ b) = stepCountP p a + stepCountP p b := by
  simp [stepCountP, List.countP_append]

theorem receiptPreamble_countP_close (w imgw : Nat) :
    stepCountP closeP (receiptPreamble w imgw) = 0 := by
  simp [receiptPreamble, stepCountP, List.countP_cons, stepP_some, closeP]

theorem receiptPreamble_countP_picto (w imgw : Nat) :
    stepCountP isPicto (receiptPreamble w imgw) = 1 := by
  simp [receiptPreamble, stepCountP, List.countP_cons, stepP_some, isPicto]

theorem receiptPreamble_countP_ar (w imgw : Nat) :
    stepCountP isAR (receiptPreamble w imgw) = 0 := by
  simp [receiptPreamble, stepCountP, List.countP_cons, stepP_some, isAR]

theorem receiptSteps_countP_close (w imgw : Nat) (o : Order) :
    stepCountP closeP (receiptSteps w imgw o) = 3 := by
  rw [receiptSteps_eq, stepCountP_append, stepCountP_append, stepCountP_append,
      receiptPreamble_countP_close, copySteps_countP_close, copySteps_countP_close,
      copySteps_countP_close]

theorem receiptSteps_countP_picto (w imgw : Nat) (o : Order) :
    stepCountP isPicto (receiptSteps w imgw o) = 1 := by
  rw [receiptSteps_eq, stepCountP_append, stepCountP_append, stepCountP_append,
      receiptPreamble_countP_picto, copySteps_countP_picto, copySteps_countP_picto,
      copySteps_countP_picto]

theorem receiptSteps_countP_ar (w imgw : Nat) (o : Order) :
    stepCountP isAR (receiptSteps w imgw o) = 1 := by
  rw [receiptSteps_eq, stepCountP_append, stepCountP_append, stepCountP_append,
      receiptPreamble_countP_ar, copySteps_countP_ar, copySteps_countP_ar,
      copySteps_countP_ar]
  simp

theorem emitSteps_countP (p : Directive → Bool) :
    ∀ steps : List Step, (emitSteps steps).2 = true →
      (emitSteps steps).1.countP p = stepCountP p steps
  | [], _ => rfl
  | none :: _, h => by simp [emitSteps] at h
  | some d :: rest, h => by
    have h2 : (emitSteps rest).2 = true := by simpa [emitSteps] using h
    simp [emitSteps, stepCountP, List.countP_cons, stepP_some,
      emitSteps_countP p rest h2]

theorem closeCount_cons_map (name : String) (calls : List Directive) :
    closeCount (Ev.openDevice name :: calls.map Ev.exec) = calls.countP closeP := by
  unfold closeCount
  rw [List.countP_cons, List.countP_map]
  have hc : (evCloseP ∘ Ev.exec) = closeP := by
    funext d
    cases d <;> rfl
  simp [hc, evCloseP]

theorem respTrace_trace_none (em : List Directive × Bool) (name : String) :
    (respTrace em name none).2 = Ev.openDevice name :: em.1.map Ev.exec := by
  unfold respTrace runDevice
  simp [apply_ite Prod.snd]

theorem respTrace_trace_fault0 (em : List Directive × Bool) (name : String)
    (h : em.1 ≠ []) : (respTrace em name (some 0)).2 = [Ev.openDevice name] := by
  unfold respTrace runDevice
  have hl : 0 < em.1.length := List.length_pos.mpr h
  simp [hl, apply_ite Prod.snd]

theorem emitSteps_receipt_ne_nil (w imgw : Nat) (o : Order) :
    (emitSteps (receiptSteps w imgw o)).1 ≠ [] := by
  rw [receiptSteps]
  simp [receiptPreamble, List.cons_append, emitSteps]

theorem emitSteps_number_ne_nil (imgw : Nat) (o : OrderNumber) :
    (emitSteps (numberSteps imgw o)).1 ≠ [] := by
  simp [numberSteps, emitSteps]

theorem emitSteps_number_ok (imgw : Nat) (o : OrderNumber) :
    (emitSteps (numberSteps imgw o)).2 = true := rfl

theorem numberSteps_countP_close (imgw : Nat) (o : OrderNumber) :
    stepCountP closeP (numberSteps imgw o) = 1 := rfl

theorem pyTake_natCast (s : String) (B : Nat) :
    pyTake s (B : Int) = String.mk (s.data.take B) := by
  unfold pyTake
  rw [if_pos (Int.natCast_nonneg B), Int.toNat_natCast]

theorem pyFormatLeft_natCast (s : String) (B : Nat) :
    pyFormatLeft s (B : Int) =
      some (String.mk (s.data ++ List.replicate (B - s.data.length) ' ')) := by
  unfold pyFormatLeft
  rw [if_neg (Int.not_lt.mpr (Int.natCast_nonneg B)), Int.toNat_natCast]

theorem length_mk (L : List Char) : (String.mk L).length = L.length := rfl

/-! ## Claim theorems -/

set_option maxRecDepth 20000 in
/-- Claim C1 (counterexample).  The claim says `print_receipt` closes the
device session exactly once before returning.  On the fault-free run for the
one-printer configuration `cfg1` and order `o1`, the session is closed three
times (the `close` call is inside the copy loop), and with a device fault
injected at the very first directive it is closed zero times (there is no
`finally`), so "exactly once" fails on both counts. -/
theorem dispatch_close_counterexample :
    closeCount (print_receipt cfg1 o1 1 none).2 = 3 ∧ (3 : Nat) ≠ 1 ∧
    closeCount (print_receipt cfg1 o1 1 (some 0)).2 = 0 := by
  refine ⟨by decide, by decide, by decide⟩

/-- Claim C1 (amended).  For every in-range printer selector: on the
fault-free path `print_receipt` closes the device session exactly once per
copy — three times in total — and `print_number` closes it exactly once; on
a path where the first directive raises a device fault, neither handler
closes the session at all (the `except` branch returns without closing). -/
theorem dispatch_close_per_copy (cfg : Config) (o : Order) (n : OrderNumber) (pid : Int)
    (hlo : 1 ≤ pid) (hhi : pid ≤ (cfg.printers.length : Int))
    (hok : (emitSteps (receiptSteps (resolvedPrinter cfg pid).profile.max_char_row
      (resolvedPrinter cfg pid).profile.image_width o)).2 = true) :
    closeCount (print_receipt cfg o pid none).2 = 3 ∧
    closeCount (print_receipt cfg o pid (some 0)).2 = 0 ∧
    closeCount (print_number cfg n pid none).2 = 1 ∧
    closeCount (print_number cfg n pid (some 0)).2 = 0 := by
  have hguard : ¬(pid < 1 ∨ (cfg.printers.length : Int) < pid) := by omega
  refine ⟨?_, ?_, ?_, ?_⟩
  · unfold print_receipt
    rw [if_neg hguard, respTrace_trace_none, closeCount_cons_map,
        emitSteps_countP _ _ hok, receiptSteps_countP_close]
  · unfold print_receipt
    rw [if_neg hguard, respTrace_trace_fault0 _ _ (emitSteps_receipt_ne_nil _ _ _)]
    rfl
  · unfold print_number
    rw [if_neg hguard, respTrace_trace_none, closeCount_cons_map,
        emitSteps_countP _ _ (emitSteps_number_ok _ _), numberSteps_countP_close]
  · unfold print_number
    rw [if_neg hguard, respTrace_trace_fault0 _ _ (emitSteps_number_ne_nil _ _)]
    rfl

set_option maxRecDepth 20000 in
/-- Witness for `dispatch_close_per_copy` at the concrete configuration
`cfg1`, order `o1` and ticket `num1`, selector `1`. -/
theorem dispatch_close_per_copy_witness :
    closeCount (print_receipt cfg1 o1 1 none).2 = 3 ∧
    closeCount (print_number cfg1 num1 1 none).2 = 1 := by
  have h := dispatch_close_per_copy cfg1 o1 num1 1 (by decide) (by decide) (by decide)
  exact ⟨h.1, h.2.2.1⟩

/-- Claim C4.  For `length right ≤ width`, `create_justify_string` returns
(no exception) exactly the row the specification describes — `left`
truncated to `width - length right` characters if longer, padded with
trailing spaces to `width - length right` characters, followed verbatim by
`right` — and that row has length exactly `width`. -/
theorem create_justify_string_spec (left right : String) (width : Nat)
    (h : right.data.length ≤ width) :
    create_justify_string left right (width : Int) = some (justify_spec left right width) ∧
    (justify_spec left right width).length = width := by
  have hB : ((width : Int) - ((right.data.length : Nat) : Int))
      = ((width - right.data.length : Nat) : Int) := (Nat.cast_sub h).symm
  constructor
  · simp only [create_justify_string, hB, pyTake_natCast, pyFormatLeft_natCast]
    by_cases hl : (width - right.data.length) < left.data.length
    · rw [if_pos (by exact_mod_cast hl)]
      unfold justify_spec
      congr 1
      have h1 : ((String.mk (left.data.take (width - right.data.length))).data).length
          = width - right.data.length := by
        rw [List.length_take]
        omega
      rw [h1, Nat.sub_self, Nat.sub_eq_zero_of_le (le_of_lt hl)]
    · rw [if_neg (by exact_mod_cast hl)]
      unfold justify_spec
      congr 1
      rw [List.take_of_length_le (not_lt.mp hl)]
  · unfold justify_spec
    rw [length_mk, List.length_append, List.length_append, List.length_take,
      List.length_replicate]
    omega

/-- Witness for `create_justify_string_spec` at the specification's own
§8 example: a 32-character row from `"Subtotal: "` and `"Rp10.000"`. -/
theorem create_justify_string_spec_witness :
    create_justify_string "Subtotal: " "Rp10.000" (32 : Int)
        = some (justify_spec "Subtotal: " "Rp10.000" 32) ∧
    (justify_spec "Subtotal: " "Rp10.000" 32).length = 32 :=
  create_justify_string_spec "Subtotal: " "Rp10.000" 32 (by decide)

/-- Claim C10.  When `length right > width` the computed left budget is
negative, so `create_justify_string` raises (the negative pad width is
rejected by the string format specifier) instead of returning a row; when
`length right = width` it returns exactly `right`. -/
theorem justify_overflow (left right : String) (width : Int) :
    ((right.data.length : Int) > width → create_justify_string left right width = none) ∧
    ((right.data.length : Int) = width → create_justify_string left right width = some right) := by
  constructor
  · intro hlt
    have hneg : width - (right.data.length : Int) < 0 := by omega
    simp only [create_justify_string, pyFormatLeft, if_pos hneg]
  · intro heq
    have hz : width - (right.data.length : Int) = ((0 : Nat) : Int) := by omega
    simp only [create_justify_string, hz, pyTake_natCast, pyFormatLeft_natCast]
    by_cases hl : ((left.data.length : Nat) : Int) > ((0 : Nat) : Int)
    · rw [if_pos hl]
      rfl
    · rw [if_neg hl]
      have hld : left.data = [] := by
        have h0 : left.data.length = 0 := by omega
        exact List.length_eq_zero.mp h0
      rw [hld]
      rfl

/-- Witness for `justify_overflow`: a 3-character right value against
widths 2 and 3. -/
theorem justify_overflow_witness :
    create_justify_string "ab" "xyz" 2 = none ∧
    create_justify_string "ab" "xyz" 3 = some "xyz" := by
  have h := justify_overflow "ab" "xyz" 2
  have h2 := justify_overflow "ab" "xyz" 3
  exact ⟨h.1 (by decide), h2.2 (by decide)⟩

/-- Claim C3.  For every out-of-range `printer_id` (below `1` or above the
number of configured printers), both endpoints reject the request with an
`HTTPException` carrying status 422 and the descriptive detail message, with
an empty device trace: no session is opened and no directive is executed,
whatever the payload or injected fault. -/
theorem invalid_selector_rejected (cfg : Config) (o : Order) (n : OrderNumber)
    (pid : Int) (f g : Option Nat)
    (h : pid < 1 ∨ pid > (cfg.printers.length : Int)) :
    print_receipt cfg o pid f = (Response.httpException 422 "Printer id isn\x27t valid", []) ∧
    print_number cfg n pid g = (Response.httpException 422 "Printer id isn\x27t valid", []) := by
  have h2 : pid < 1 ∨ (cfg.printers.length : Int) < pid := by omega
  unfold print_receipt print_number
  rw [if_pos h2, if_pos h2]
  exact ⟨rfl, rfl⟩

/-- Witness for `invalid_selector_rejected` at selectors `0` (below range)
and `2` (above the single configured printer of `cfg1`). -/
theorem invalid_selector_rejected_witness :
    print_receipt cfg1 o1 0 none = (Response.httpException 422 "Printer id isn\x27t valid", []) ∧
    print_number cfg1 num1 2 none = (Response.httpException 422 "Printer id isn\x27t valid", []) := by
  have h := invalid_selector_rejected cfg1 o1 num1 0 none none (by decide)
  have h2 := invalid_selector_rejected cfg1 o1 num1 2 none none (by decide)
  exact ⟨h.1, h2.2⟩

set_option maxRecDepth 20000 in
/-- Claim C2 (counterexample).  The claim says each of the 3 copies begins
with the header image directive followed by the divider.  For the concrete
order `o1` on the `POS-58` profile, the whole receipt stream contains the
header image exactly once (not three times), and the second copy begins
with the order-id label, not with an image. -/
theorem header_per_copy_counterexample :
    stepCountP isPicto (receiptSteps 32 384 o1) = 1 ∧ (1 : Nat) ≠ 3 ∧
    (copySteps 32 384 o1 1).head? = some (some (Directive.text "No. Pesanan: ")) := by
  refine ⟨receiptSteps_countP_picto 32 384 o1, by decide, by decide⟩

/-- Claim C2 (amended).  The receipt body is repeated 3 times, but the
header image directive sized to the profile's bitmap width and the divider
row of `max_char_row` dashes are emitted exactly once, before the three
copies, not at the start of each copy. -/
theorem header_once_before_copies (w imgw : Nat) (o : Order) :
    receiptSteps w imgw o =
      receiptPreamble w imgw
        ++ (copySteps w imgw o 0 ++ (copySteps w imgw o 1 ++ copySteps w imgw o 2)) ∧
    receiptPreamble w imgw =
      [some (Directive.image imgw "assets/Picto 7.png" true),
       some (Directive.setWD "left" false false false),
       some (Directive.textln (divider w))] ∧
    stepCountP isPicto (receiptSteps w imgw o) = 1 :=
  ⟨receiptSteps_eq w imgw o, rfl, receiptSteps_countP_picto w imgw o⟩

/-- Claim C5.  For every order, the full 3-copy receipt stream contains the
secondary `AR QR` image directive exactly once; the first copy (index 0)
carries the scan-invitation block and that image immediately before its
`cut`, and every copy with a different index has exactly the same layout
without the extra block — the gating depends only on the copy index. -/
theorem first_copy_extra_block (w imgw : Nat) (o : Order) :
    stepCountP isAR (receiptSteps w imgw o) = 1 ∧
    copySteps w imgw o 0 =
      preChangeSteps w o
        ++ (if o.transaction.payment_method = PaymentMethod.cash
            then [changeStep w o] else [])
        ++ postChangeSteps w ++ extraSteps imgw
        ++ [some Directive.cut, some Directive.close] ∧
    (∀ i, i ≠ 0 → copySteps w imgw o i =
      preChangeSteps w o
        ++ (if o.transaction.payment_method = PaymentMethod.cash
            then [changeStep w o] else [])
        ++ postChangeSteps w
        ++ [some Directive.cut, some Directive.close]) := by
  refine ⟨receiptSteps_countP_ar w imgw o, ?_, ?_⟩
  · simp [copySteps]
  · intro i hi
    simp [copySteps, hi]

/-- Witness for `first_copy_extra_block` at order `o1`, instantiating the
universally quantified copy index with `1 ≠ 0`. -/
theorem first_copy_extra_block_witness :
    stepCountP isAR (receiptSteps 32 384 o1) = 1 ∧
    copySteps 32 384 o1 1 =
      preChangeSteps 32 o1
        ++ (if o1.transaction.payment_method = PaymentMethod.cash
            then [changeStep 32 o1] else [])
        ++ postChangeSteps 32
        ++ [some Directive.cut, some Directive.close] := by
  have h := first_copy_extra_block 32 384 o1
  exact ⟨h.1, h.2.2 1 (by decide)⟩

theorem stepCount_append (v : Step) (a b : List Step) :
    stepCount v (a ++ b) = stepCount v a + stepCount v b := by
  simp [stepCount, List.countP_append]

theorem stepCount_eq_zero (v : Step) (l : List Step) (h : v ∉ l) : stepCount v l = 0 := by
  apply List.countP_eq_zero.mpr
  intro a ha
  simp only [decide_eq_true_eq]
  rintro rfl
  exact h ha

theorem stepCount_tail_zero (w : Nat) (o : Order) :
    stepCount (changeStep w o) [some Directive.cut, some Directive.close] = 0 := by
  have hch : changeStep w o = frowStep "Kembalian: " o.transaction.change w := rfl
  rcases frowStep_shape "Kembalian: " o.transaction.change w with hs | ⟨s, hs⟩ <;>
    simp [stepCount, hch, hs]

theorem stepCount_copy (w imgw : Nat) (o : Order) (i : Nat)
    (h2 : changeStep w o ∉ preChangeSteps w o)
    (h3 : changeStep w o ∉ postChangeSteps w)
    (h4 : changeStep w o ∉ extraSteps imgw) :
    stepCount (changeStep w o) (copySteps w imgw o i)
      = if o.transaction.payment_method = PaymentMethod.cash then 1 else 0 := by
  unfold copySteps
  rw [stepCount_append, stepCount_append, stepCount_append, stepCount_append,
      stepCount_eq_zero _ _ h2, stepCount_eq_zero _ _ h3, stepCount_tail_zero]
  have hextra : stepCount (changeStep w o) (if i = 0 then extraSteps imgw else []) = 0 := by
    by_cases hi : i = 0
    · rw [if_pos hi]
      exact stepCount_eq_zero _ _ h4
    · rw [if_neg hi]
      rfl
  rw [hextra]
  by_cases hc : o.transaction.payment_method = PaymentMethod.cash
  · rw [if_pos hc, if_pos hc]
    simp [stepCount]
  · rw [if_neg hc, if_neg hc]
    simp [stepCount]

/-- Claim C6.  The justified change row appears in the receipt stream (once
per copy, so three times in total) exactly when the payment method is cash,
and never for e-wallet.  The disambiguation hypotheses say that the change
row does not textually collide with any other fixed row of the layout; they
hold for every realistic order and are checked by `decide` at the witness. -/
theorem change_row_iff (w imgw : Nat) (o : Order)
    (h1 : changeStep w o ∉ receiptPreamble w imgw)
    (h2 : changeStep w o ∉ preChangeSteps w o)
    (h3 : changeStep w o ∉ postChangeSteps w)
    (h4 : changeStep w o ∉ extraSteps imgw) :
    stepCount (changeStep w o) (receiptSteps w imgw o)
      = (if o.transaction.payment_method = PaymentMethod.cash then 3 else 0) ∧
    (o.transaction.payment_method = PaymentMethod.cash
      ↔ stepCount (changeStep w o) (receiptSteps w imgw o) = 3) := by
  have hcopy : ∀ i, stepCount (changeStep w o) (copySteps w imgw o i)
      = if o.transaction.payment_method = PaymentMethod.cash then 1 else 0 :=
    fun i => stepCount_copy w imgw o i h2 h3 h4
  have hall : stepCount (changeStep w o) (receiptSteps w imgw o)
      = if o.transaction.payment_method = PaymentMethod.cash then 3 else 0 := by
    rw [receiptSteps_eq, stepCount_append, stepCount_append, stepCount_append,
        stepCount_eq_zero _ _ h1, hcopy, hcopy, hcopy]
    by_cases hc : o.transaction.payment_method = PaymentMethod.cash <;> simp [hc]
  refine ⟨hall, ?_⟩
  rw [hall]
  by_cases hc : o.transaction.payment_method = PaymentMethod.cash <;> simp [hc]

set_option maxRecDepth 20000 in
/-- Witness for `change_row_iff` at the cash order `o1` on the `POS-58`
profile: the change row appears three times (once per copy). -/
theorem change_row_iff_witness :
    stepCount (changeStep 32 o1) (receiptSteps 32 384 o1) = 3 := by
  have h := change_row_iff 32 384 o1 (by decide) (by decide) (by decide) (by decide)
  exact h.2.mp (by decide)

theorem roundToDouble_small (n : Nat) (h : n < 2 ^ 53) : roundToDouble n = n := by
  unfold roundToDouble
  rw [if_pos h]

set_option maxRecDepth 20000 in
/-- Claim C7 (counterexample).  The claim says the formatter maps any
non-negative integer to its decimal digits grouped in thousands.  At
`2 ^ 53 + 1 = 9007199254740993` the f-string first converts the int to a
double, which rounds to `9007199254740992`, so the produced digits are not
the digits of the amount. -/
theorem format_rupiah_counterexample :
    format_rupiah 9007199254740993 = some "Rp9.007.199.254.740.992" ∧
    groupedDecimal 9007199254740993 = "9.007.199.254.740.993" ∧
    format_rupiah 9007199254740993 ≠ some ("Rp" ++ groupedDecimal 9007199254740993) := by
  refine ⟨by decide, by decide, by decide⟩

/-- Claim C7 (amended).  For every non-negative integer amount below
`2 ^ 53` (the range on which CPython's int-to-double conversion is exact),
the formatter produces `Rp` followed by the amount's decimal digits grouped
in thousands with the hardcoded `.` separator and no fractional component,
independent of any host locale (the grouping is pure string surgery). -/
theorem format_rupiah_groups (a : Nat) (h : a < 2 ^ 53) :
    format_rupiah (a : Int) = some ("Rp" ++ groupedDecimal a) := by
  unfold format_rupiah
  rw [Int.natAbs_ofNat, roundToDouble_small a h]
  rw [if_pos (lt_trans h (Nat.pow_lt_pow_right one_lt_two (by norm_num)))]
  rw [if_neg (Int.not_lt.mpr (Int.natCast_nonneg a))]
  rfl

set_option maxRecDepth 20000 in
/-- Witness for `format_rupiah_groups` at the specification's own example
`format_currency(1000000) = "Rp1.000.000"`. -/
theorem format_rupiah_groups_witness :
    format_rupiah ((1000000 : Nat) : Int) = some "Rp1.000.000" := by
  have h := format_rupiah_groups 1000000 (by norm_num)
  rw [h]
  rfl

/-- Claim C8.  For every order with an empty `items` list, the per-copy row
stream contains zero per-item justified rows while every other row of the
layout — order id, timestamp, cashier, dividers, subtotal, handling fee,
total, payment rows — is present unchanged, and the receipt keeps its
header-plus-three-copies structure (thank-you line, conditional block and
cut live in `postChangeSteps`, `extraSteps` and the copy tail). -/
theorem empty_items_rows (w imgw : Nat) (o : Order) (h : o.items = []) :
    preChangeSteps w o =
      [ some (Directive.text "No. Pesanan: "),
        some (Directive.set none (some true)),
        some (Directive.textln (toString o.order_id)),
        some (Directive.set none (some false)),
        some (Directive.textln ("Waktu: " ++ o.transaction.paid_at)),
        some (Directive.textln ("Kasir: " ++ o.transaction.cashier)),
        some (Directive.textln (divider w)),
        some (Directive.textln ""),
        some (Directive.set none (some false)),
        some (Directive.textln ""),
        some (Directive.textln (divider w)),
        frowStep "Subtotal: " o.subtotal w,
        frowStep "Biaya Penanganan: " (o.total - o.subtotal) w,
        some (Directive.textln (divider w)),
        some (Directive.set none (some true)),
        frowStep "Total: " o.total w,
        some (Directive.textln (divider w)),
        some (Directive.set none (some false)),
        jrowStep "Metode Bayar: " (payment_method_str o.transaction.payment_method) w,
        frowStep "Bayar: " o.transaction.paid_amount w ] ∧
    receiptSteps w imgw o =
      receiptPreamble w imgw
        ++ (copySteps w imgw o 0 ++ (copySteps w imgw o 1 ++ copySteps w imgw o 2)) := by
  constructor
  · unfold preChangeSteps
    rw [h]
    rfl
  · exact receiptSteps_eq w imgw o

/-- Witness for `empty_items_rows` at the empty-items e-wallet order `o2`. -/
theorem empty_items_rows_witness :
    preChangeSteps 32 o2 =
      [ some (Directive.text "No. Pesanan: "),
        some (Directive.set none (some true)),
        some (Directive.textln (toString o2.order_id)),
        some (Directive.set none (some false)),
        some (Directive.textln ("Waktu: " ++ o2.transaction.paid_at)),
        some (Directive.textln ("Kasir: " ++ o2.transaction.cashier)),
        some (Directive.textln (divider 32)),
        some (Directive.textln ""),
        some (Directive.set none (some false)),
        some (Directive.textln ""),
        some (Directive.textln (divider 32)),
        frowStep "Subtotal: " o2.subtotal 32,
        frowStep "Biaya Penanganan: " (o2.total - o2.subtotal) 32,
        some (Directive.textln (divider 32)),
        some (Directive.set none (some true)),
        frowStep "Total: " o2.total 32,
        some (Directive.textln (divider 32)),
        some (Directive.set none (some false)),
        jrowStep "Metode Bayar: " (payment_method_str o2.transaction.payment_method) 32,
        frowStep "Bayar: " o2.transaction.paid_amount 32 ] :=
  (empty_items_rows 32 384 o2 rfl).1

/-- Claim C9.  `Config.load` first overwrites an existing `config.json` with
the default configuration and then reads it back, so any previously saved
configuration is discarded and loading returns the parsed defaults; when the
file does not exist nothing is written and opening fails with
`FileNotFoundError` (the `isfile` guard is inverted). -/
theorem config_load_overwrites (c : ConfigData) :
    Config.load (some c) =
      (some default_config_data,
       Except.ok ⟨"0.0.0.0", 9000, ["*"], [⟨"POS-58", "POS-58", ⟨32, 384⟩⟩]⟩) ∧
    Config.load none = (none, Except.error "FileNotFoundError") :=
  ⟨rfl, rfl⟩

end PictoPoint
